import Mathlib

/-!
Shallow embedding of `backtrader/plot/plot.py` — the chart layout and
composition engine (classifier, layout planner, panel allocator, composer)
— together with proofs settling the frozen claims about it.

Machine conventions of the embedding:
* Python floats that carry z-order / sample values are modelled as `ℚ`
  (the code only multiplies by 1.0001/0.9999 and adds 3.0; `NaN` samples
  are modelled as `none` in `Option ℚ`, mirroring `math.isnan`).
* Python strings used as style names are modelled as `List Char` so that
  `str.startswith` becomes `List.isPrefixOf`.
* The matplotlib objects (axes, artists) are modelled by the attributes
  the source reads or writes: row span, tick-label visibility, date
  formatter, z-order, legend label.
-/

namespace BtPlot

/-- The subset of `PlotScheme` (scheme.py) fields that `plot.py`'s layout
logic reads: row spans, volume toggles, z-order direction, grid, price
style string and tick label rotation. -/
structure PlotScheme where
  rowsmajor : Nat
  rowsminor : Nat
  volume : Bool
  voloverlay : Bool
  zdown : Bool
  grid : Bool
  style : List Char
  tickrotation : Int
deriving DecidableEq

/-! ### PInfo z-order and color bookkeeping (`PInfo`, lines 45-71) -/

/-- `PInfo.zordernext` (plot.py lines 64-68): the next z-order on an axis
whose current z-order is `z`: `z * 0.9999` when `sch.zdown`, else
`z * 1.0001`. -/
def zordernext (sch : PlotScheme) (z : ℚ) : ℚ :=
  if sch.zdown then z * 0.9999 else z * 1.0001

/-- `Plot.drawtag` (lines 81-91) places its text at
`zorder = self.pinf.zorder[ax] + 3.0`; `drawtagZ` is that z-order as a
function of the axis' current z-order. -/
def drawtagZ (curz : ℚ) : ℚ := curz + 3.0

/-- The tag drawn by `Plot.drawtag`: text of the value `y` (rendered by
the source as `'%.2f' % y`) at z-order `curz + 3.0`. -/
structure TagArtifact where
  y : ℚ
  z : ℚ
deriving DecidableEq

/-- `Plot.drawtag` as a value: given the axis' current recorded z-order
and the y value, the produced text artifact. -/
def drawtag (curz y : ℚ) : TagArtifact := ⟨y, drawtagZ curz⟩

/-! ### Price style resolution (`Plot.plotdata`, lines 401-419) -/

/-- The three price renderers dispatched to by `Plot.plotdata`:
`plot_lineonclose`, `plot_candlestick`, `plot_ohlc`. -/
inductive PriceRenderer
  | lineonclose
  | candlestick
  | ohlcbar
deriving DecidableEq

/-- The characters of the style name tested by `style.startswith('line')`. -/
def linePat : List Char := ['l', 'i', 'n', 'e']

/-- The characters of the style name tested by `style.startswith('candle')`. -/
def candlePat : List Char := ['c', 'a', 'n', 'd', 'l', 'e']

/-- The characters of the style name tested by `style.startswith('bar')`. -/
def barPat : List Char := ['b', 'a', 'r']

/-- The renderer dispatch of `Plot.plotdata` (lines 401-419):
`if style.startswith('line') ... elif style.startswith('candle') ...
elif style.startswith('bar') or True: # final default option`.
The `|| true` mirrors the source's `or True`. -/
def styleRenderer (style : List Char) : PriceRenderer :=
  if linePat.isPrefixOf style then .lineonclose
  else if candlePat.isPrefixOf style then .candlestick
  else if barPat.isPrefixOf style || true then .ohlcbar
  else .ohlcbar

/-! ### Classifier (`Plot.sortdataindicators`, lines 472-507) -/

/-- The plot metadata read by the classifier: `plotinfo.plot`,
`plotinfo.plotskip`, `plotinfo.subplot`, `plotinfo.plotabove`. -/
structure PlotInfo where
  plot : Bool
  plotskip : Bool
  subplot : Bool
  plotabove : Bool
deriving DecidableEq

/-- An observer of the strategy.  `clockOwner` models
`getattr(x._clock, 'owner', x._clock)`: `some k` when the clock is a
stub carrying an `owner` back-reference to `k`, `none` when the clock is
itself the owner (identified by `clockId`).  Observers always expose
`plotinfo` (the source reads it unconditionally). -/
structure Observer where
  id : Nat
  clockId : Nat
  clockOwner : Option Nat
  plotinfo : PlotInfo
deriving DecidableEq

/-- An indicator of the strategy.  `plotinfo = none` models
`not hasattr(x, 'plotinfo')` (no plotting support). -/
structure Indicator where
  id : Nat
  clockId : Nat
  clockOwner : Option Nat
  plotinfo : Option PlotInfo
deriving DecidableEq

/-- Owner-key resolution `getattr(x._clock, 'owner', x._clock)` for an
observer. -/
def okey (o : Observer) : Nat := o.clockOwner.getD o.clockId

/-- Owner-key resolution `getattr(x._clock, 'owner', x._clock)` for an
indicator. -/
def ikey (i : Indicator) : Nat := i.clockOwner.getD i.clockId

/-- An entry of the mixed `dplotsover` mapping, which receives both
observers and indicators. -/
inductive OI
  | obs (o : Observer)
  | ind (i : Indicator)
deriving DecidableEq

/-- The four placement groups built by `sortdataindicators`.  Python's
`defaultdict(list)` keyed by owner is modelled as an ordered list of
(key, object) pairs; the per-owner list is recovered by filtering on the
key, which preserves the append order of the source. -/
structure Groups where
  dplotstop : List Observer
  dplotsup : List (Nat × Indicator)
  dplotsdown : List (Nat × Indicator)
  dplotsover : List (Nat × OI)
deriving DecidableEq

def emptyGroups : Groups := ⟨[], [], [], []⟩

/-- One step of the observer loop of `sortdataindicators`
(lines 480-488). -/
def classifyObs (g : Groups) (o : Observer) : Groups :=
  if !o.plotinfo.plot || o.plotinfo.plotskip then g
  else if o.plotinfo.subplot then
    { g with dplotstop := g.dplotstop ++ [o] }
  else
    { g with dplotsover := g.dplotsover ++ [(okey o, OI.obs o)] }

/-- One step of the indicator loop of `sortdataindicators`
(lines 491-507). -/
def classifyInd (g : Groups) (i : Indicator) : Groups :=
  match i.plotinfo with
  | none => g
  | some pi =>
    if !pi.plot || pi.plotskip then g
    else if pi.subplot then
      if pi.plotabove then { g with dplotsup := g.dplotsup ++ [(ikey i, i)] }
      else { g with dplotsdown := g.dplotsdown ++ [(ikey i, i)] }
    else
      { g with dplotsover := g.dplotsover ++ [(ikey i, OI.ind i)] }

/-- A strategy as seen by the plotter: its ordered data feeds (by id),
observers and indicators. -/
structure Strategy where
  datas : List Nat
  observers : List Observer
  indicators : List Indicator
deriving DecidableEq

/-- `Plot.sortdataindicators` (lines 472-507): the observer loop followed
by the indicator loop, starting from empty groups. -/
def sortdataindicators (s : Strategy) : Groups :=
  s.indicators.foldl classifyInd (s.observers.foldl classifyObs emptyGroups)

/-- Visibility test of the observer loop:
`not (not x.plotinfo.plot or x.plotinfo.plotskip)`. -/
def obsShown (o : Observer) : Bool :=
  o.plotinfo.plot && !o.plotinfo.plotskip

/-- Visibility test of the indicator loop: has `plotinfo` and
`not (not plot or plotskip)`. -/
def indShown (i : Indicator) : Bool :=
  match i.plotinfo with
  | none => false
  | some pi => pi.plot && !pi.plotskip

/-- `plotinfo.subplot` of an indicator (false when metadata missing). -/
def indSub (i : Indicator) : Bool :=
  match i.plotinfo with
  | none => false
  | some pi => pi.subplot

/-- `plotinfo.plotabove` of an indicator (false when metadata missing). -/
def indAbove (i : Indicator) : Bool :=
  match i.plotinfo with
  | none => false
  | some pi => pi.plotabove

/-! ### Layout planner (`Plot.calcrows`, lines 157-178) -/

/-- `Plot.calcrows` (lines 157-175): datas contribute `rowsmajor` each,
plus `rowsminor` each when volume is shown on its own panel, top
observers contribute `rowsminor` each, and the above/below groups
contribute `sum(len(v) for v in ...)` — one ROW per entry (the source
does not multiply these by `rowsminor`). -/
def calcrows (sch : PlotScheme) (s : Strategy) (g : Groups) : Nat :=
  s.datas.length * sch.rowsmajor
  + (if sch.volume && !sch.voloverlay then s.datas.length * sch.rowsminor else 0)
  + g.dplotstop.length * sch.rowsminor
  + g.dplotsup.length
  + g.dplotsdown.length

/-! ### Panel allocation trace (`Plot.newaxis` and its callers) -/

/-- A panel created by `Plot.newaxis` (lines 180-198): its owning object
key (the `daxis` key) and the `rowspan` it reserves on the grid. -/
structure Panel where
  key : Nat
  rowspan : Nat
deriving DecidableEq

/-- Per-owner lookup into a keyed group, mirroring `defaultdict` access
`dplotsup[data]` / `dplotsdown[data]`: the entries appended under that
key, in append order. -/
def groupAt (g : List (Nat × Indicator)) (d : Nat) : List Indicator :=
  (g.filter (fun e => e.1 == d)).map Prod.snd

/-- The panels created while `Plot.plotdata` renders one data feed
(lines 353-467 together with `Plot.plotvolume`, lines 307-351): with
volume overlaid, `plotvolume` opens one `rowsmajor` panel (the price
axis is a `twinx` of it, no new rows); otherwise one `rowsmajor` price
panel, followed — when volume is shown — by a separate `rowsminor`
volume panel. -/
def dataPanels (sch : PlotScheme) (d : Nat) : List Panel :=
  if sch.volume && sch.voloverlay then
    [⟨d, sch.rowsmajor⟩]
  else
    ⟨d, sch.rowsmajor⟩ :: (if sch.volume then [⟨d, sch.rowsminor⟩] else [])

/-- The full sequence of `newaxis` calls of one `Plot.plot` run
(lines 105-118): top observers first (`plotind`, `rowsminor` each), then
per data feed its above indicators, the data/volume panels, and its
below indicators (`plotind` panels take `rowsminor` rows; overlays are
drawn on `masterax` and open no panel). -/
def panelsFor (sch : PlotScheme) (s : Strategy) (g : Groups) : List Panel :=
  g.dplotstop.map (fun o => ⟨o.id, sch.rowsminor⟩)
  ++ s.datas.flatMap (fun d =>
      (groupAt g.dplotsup d).map (fun i => (⟨i.id, sch.rowsminor⟩ : Panel))
      ++ dataPanels sch d
      ++ (groupAt g.dplotsdown d).map (fun i => (⟨i.id, sch.rowsminor⟩ : Panel)))

/-- Total rows reserved by the allocator over a run — the final value of
the row cursor `self.pinf.row`, which `newaxis` advances by `rowspan`
at each call. -/
def sumRowspans (ps : List Panel) : Nat := (ps.map Panel.rowspan).sum

/-! ### Final axis formatting (`Plot.plot`, lines 120-151) -/

/-- The x-axis attributes of a created panel that `Plot.plot` touches
after drawing: whether the real-timestamp date formatter/locator was
installed, whether the x tick labels are visible, and their rotation. -/
structure AxisX where
  key : Nat
  dateFormatter : Bool
  ticksVisible : Bool
  rotation : Int
deriving DecidableEq

/-- A freshly created subplot axis: no date formatter installed, tick
labels visible (matplotlib default), no rotation applied. -/
def mkAxis (p : Panel) : AxisX :=
  ⟨p.key, false, true, 0⟩

/-- Lines 120-151 of `Plot.plot`: `lastax = daxis.values()[-1]` gets the
date locator/formatter; then every axis' x tick labels are hidden and
`lastax`'s are re-shown with the configured rotation.  Net effect on the
axis list: every non-last axis is hidden, the last axis gets the
formatter, visible labels and the rotation. -/
def finalizeAxes (sch : PlotScheme) (axes : List AxisX) : List AxisX :=
  (axes.dropLast.map (fun a => { a with ticksVisible := false }))
  ++ (match axes.getLast? with
      | none => []
      | some la =>
        [{ la with dateFormatter := true, ticksVisible := true,
                   rotation := sch.tickrotation }])

/-! ### Composer (`Plot.plot`, lines 93-155) -/

/-- The observable outcome of one `Plot.plot` run: the planned row
total, the panels created, and the final x-axis states. -/
structure RunResult where
  nrows : Nat
  panels : List Panel
  axes : List AxisX
deriving DecidableEq

/-- `Plot.plot` (lines 93-155): `if not strategy.datas: return` — no run
state is allocated and nothing is drawn; otherwise classify, plan rows,
create the panels and finalize the axes. -/
def plot (sch : PlotScheme) (s : Strategy) : Option RunResult :=
  if s.datas.isEmpty then none
  else
    let g := sortdataindicators s
    let nrows := calcrows sch s g
    let panels := panelsFor sch s g
    some ⟨nrows, panels, finalizeAxes sch (panels.map mkAxis)⟩

/-! ### Per-line rendering inside `Plot.plotind` (lines 200-259) -/

/-- The per-line style directives read by the loop body:
`_plotskip`, `_samecolor`, and an explicit `color` kwarg
(in `linekwargs.get('color', None)`), modelled as a palette id. -/
structure LineStyle where
  skipFlag : Bool
  samecolor : Bool
  color : Option Nat
deriving DecidableEq

/-- One sub-series ("line") of an indicator: its alias and its plotted
samples `line.plot()`; a `NaN` sample is `none`. -/
structure SeriesLine where
  alia : String
  style : LineStyle
  values : List (Option ℚ)
deriving DecidableEq

/-- The color finally passed to the draw call: either the explicit
per-line `color` kwarg, or the axis' cycled palette index
(`self.pinf.color(ax)` after an optional `nextcolor`). -/
inductive LColor
  | explicit (c : Nat)
  | cycle (i : Int)
deriving DecidableEq

/-- The per-axis mutable state the loop body touches:
`self.pinf.coloridx[ax]` (a `defaultdict` starting at `-1`) and
`self.pinf.zorder[ax]` (`none` while `ax not in self.pinf.zorder`). -/
structure AxState where
  coloridx : Int
  zorder : Option ℚ
deriving DecidableEq

/-- Initial `AxState` of a fresh axis. -/
def axStart : AxState := ⟨-1, none⟩

/-- What one drawn line leaves behind: its legend label base, the
numeric suffix appended to it (`' %.2f' % lplot[-1]`, present only when
the final sample is not `NaN`), its resolved color, the z-order recorded
from `plottedline.get_zorder()`, and the optional last-value tag. -/
structure LineArtifact where
  label : String
  suffix : Option ℚ
  color : LColor
  z : ℚ
  tag : Option TagArtifact
deriving DecidableEq

/-- Lines 219-223: `label = indlabel * (lineidx == 0) or '_nolegend'`
when on a master axis without `plotlinelabels`, else the line alias.
(`indlabel * False` is `''`, which is falsy, hence `'_nolegend'`.) -/
def lineLabelBase (masterax plotlinelabels : Bool) (indlabel : String)
    (lineidx : Nat) (alia : String) : String :=
  if masterax && !plotlinelabels then
    let l := if lineidx == 0 then indlabel else ""
    if l ≠ "" then l else "_nolegend"
  else alia

/-- `lplot[-1]` filtered through `math.isnan`: the final sample when it
is a number, `none` when the series is empty or ends in `NaN`. -/
def lastSample (vals : List (Option ℚ)) : Option ℚ :=
  match vals.getLast? with
  | some (some v) => some v
  | _ => none

/-- The body of `for lineidx in range(ind.size())` in `Plot.plotind`
(lines 211-259) for one line: skip on `_plotskip`; compute the legend
label and its last-value suffix; resolve the color (advancing the cycle
only when no explicit color and not `_samecolor`); pass a z-order only
when the axis already has one; record `plottedline.get_zorder()` (the
passed z-order, or the renderer's default `defz` on the first line); and
draw the last-value tag when the final sample is a number. -/
def processLine (sch : PlotScheme) (defz : ℚ) (masterax plotlinelabels : Bool)
    (indlabel : String) (st : AxState) (lineidx : Nat) (ln : SeriesLine) :
    AxState × Option LineArtifact :=
  if ln.style.skipFlag then (st, none)
  else
    let base := lineLabelBase masterax plotlinelabels indlabel lineidx ln.alia
    let lastv := lastSample ln.values
    let stc :=
      match ln.style.color with
      | some _ => st
      | none =>
        if ln.style.samecolor then st
        else { st with coloridx := st.coloridx + 1 }
    let col :=
      match ln.style.color with
      | some c => LColor.explicit c
      | none => LColor.cycle stc.coloridx
    let zpass := stc.zorder.map (zordernext sch)
    let newz := zpass.getD defz
    ({ stc with zorder := some newz },
     some ⟨base, lastv, col, newz, lastv.map (drawtag newz)⟩)

/-- The whole line loop of `Plot.plotind`, threading the axis state and
collecting the drawn artifacts in draw order. -/
def processLines (sch : PlotScheme) (defz : ℚ)
    (masterax plotlinelabels : Bool) (indlabel : String)
    (st : AxState) (lineidx : Nat) :
    List SeriesLine → AxState × List LineArtifact
  | [] => (st, [])
  | ln :: rest =>
    let r1 := processLine sch defz masterax plotlinelabels indlabel st lineidx ln
    let r2 := processLines sch defz masterax plotlinelabels indlabel r1.1
      (lineidx + 1) rest
    (r2.1, match r1.2 with
           | none => r2.2
           | some a => a :: r2.2)

/-- The draw-order-relevant signature of an artifact: the claim C10
speaks of "the colors and z-orders assigned to all subsequent lines". -/
def artSig (a : LineArtifact) : LColor × ℚ := (a.color, a.z)

/-! ### Legend assembly of the price panel (`Plot.plotdata`, lines 446-467) -/

/-- Python `list.index` (first index of `x`); only meaningful when `x`
is a member — the source would raise `ValueError` otherwise. -/
def pyIndex (x : String) : List String → Nat
  | [] => 0
  | a :: rest => if a == x then 0 else pyIndex x rest + 1

/-- Python `list.pop(i)`'s effect on the list: element `i` removed. -/
def pyPop (l : List String) (i : Nat) : List String :=
  l.take i ++ l.drop (i + 1)

/-- Lines 446-457 of `Plot.plotdata`: when there is anything to show,
insert the volume label at position 0 if volume is overlaid, then find
the data label, pop it and re-insert it at position 0 (the popped
element is `labels[didx]`, modelled via `getD`). -/
def legendReorder (overlayVol : Bool) (vollabel datalabel : String)
    (labels : List String) : List String :=
  let ls := if overlayVol then vollabel :: labels else labels
  let didx := pyIndex datalabel ls
  ls.getD didx "" :: pyPop ls didx

/-- The final legend of the price panel: `None` when
`get_legend_handles_labels` came back empty (no legend drawn),
otherwise the reordered labels, with the volume insertion driven by
`sch.volume and sch.voloverlay`. -/
def plotdataLegend (sch : PlotScheme) (vollabel datalabel : String)
    (labels : List String) : Option (List String) :=
  if labels.isEmpty then none
  else some (legendReorder (sch.volume && sch.voloverlay) vollabel datalabel labels)

/-- The artificial modification applied to the last axis by the
finalization step: formatter installed, labels shown and rotated. -/
def lastAxisMod (sch : PlotScheme) (a : AxisX) : AxisX :=
  { a with dateFormatter := true, ticksVisible := true,
           rotation := sch.tickrotation }

/-! ### Claim-side comparison definitions -/

/-- The row accounting as claim C3 words it (stated from the spec, for
comparison with `calcrows`): each data feed one major block, each data
feed one extra minor block when volume is shown un-overlaid, each top
entry one minor block, and each entry of the above and below groups one
minor-panel-span block. -/
def calcrowsClaimed (sch : PlotScheme) (s : Strategy) (g : Groups) : Nat :=
  s.datas.length * sch.rowsmajor
  + (if sch.volume && !sch.voloverlay then s.datas.length * sch.rowsminor else 0)
  + g.dplotstop.length * sch.rowsminor
  + g.dplotsup.length * sch.rowsminor
  + g.dplotsdown.length * sch.rowsminor

/-- The "last valid (non-NaN) value" of a series in the sense of claim
C9: the last sample that is a number, regardless of position. -/
def lastValidValue (vals : List (Option ℚ)) : Option ℚ :=
  (vals.filterMap id).getLast?

/-- How many times observer `o` occurs across the placement groups
(`dplotstop` and the observer side of `dplotsover`). -/
def countObsIn (g : Groups) (o : Observer) : Nat :=
  g.dplotstop.count o + (g.dplotsover.map Prod.snd).count (OI.obs o)

/-- How many times indicator `i` occurs across the placement groups
(`dplotsup`, `dplotsdown` and the indicator side of `dplotsover`). -/
def countIndIn (g : Groups) (i : Indicator) : Nat :=
  (g.dplotsup.map Prod.snd).count i + (g.dplotsdown.map Prod.snd).count i
  + (g.dplotsover.map Prod.snd).count (OI.ind i)

/-! ### Concrete instances used by witnesses and counterexamples -/

/-- A scheme with the upstream default spans (`rowsmajor = 5`,
`rowsminor = 1`), volume off. -/
def schD : PlotScheme := ⟨5, 1, false, false, false, true, barPat, 15⟩

/-- A scheme with `rowsminor = 2` — a legal style configuration that
exposes the row-accounting mismatch of `calcrows`. -/
def sch2 : PlotScheme := ⟨5, 2, false, false, false, true, barPat, 15⟩

/-- A scheme with volume enabled and overlaid on the price panel. -/
def schOv : PlotScheme := ⟨5, 1, true, true, false, true, barPat, 15⟩

/-- A scheme with descending z-order stacking (`zdown = True`). -/
def schZd : PlotScheme := ⟨5, 1, false, false, true, true, barPat, 15⟩

/-- An indicator on data 0 requesting its own sub-panel above the data. -/
def indAbove2 : Indicator := ⟨10, 0, none, some ⟨true, false, true, true⟩⟩

/-- One data feed with a single above-indicator and nothing else. -/
def s2 : Strategy := ⟨[0], [], [indAbove2]⟩

/-- One bare data feed. -/
def s1 : Strategy := ⟨[0], [], []⟩

/-- The empty strategy: no data feeds. -/
def sEmpty : Strategy := ⟨[], [], []⟩

/-- The `plot` outcome on `s1` with scheme `schD` (used to instantiate
hypotheses of claim theorems on a concrete run). -/
def res1 : RunResult := (plot schD s1).getD ⟨0, [], []⟩

/-- A line whose final sample is `NaN` although an earlier valid sample
(`1`) exists. -/
def lnC : SeriesLine := ⟨"l0", ⟨false, false, none⟩, [some 1, none]⟩

/-- A line ending in the valid sample `3`. -/
def lnW : SeriesLine := ⟨"w", ⟨false, false, none⟩, [none, some 3]⟩

/-- A line with `_plotskip` set. -/
def lnS : SeriesLine := ⟨"s", ⟨true, false, none⟩, [some 7]⟩

/-- Observers for the classifier witness: own-panel, overlay on a stub
clock, and a skipped one. -/
def o1c : Observer := ⟨1, 5, none, ⟨true, false, true, false⟩⟩

def o2c : Observer := ⟨2, 6, some 0, ⟨true, false, false, false⟩⟩

def o3c : Observer := ⟨3, 0, none, ⟨true, true, false, false⟩⟩

/-- Indicators for the classifier witness: above, below, overlay, and
one without plot metadata. -/
def i1c : Indicator := ⟨11, 0, none, some ⟨true, false, true, true⟩⟩

def i2c : Indicator := ⟨12, 0, none, some ⟨true, false, true, false⟩⟩

def i3c : Indicator := ⟨13, 7, some 0, some ⟨true, false, false, false⟩⟩

def i4c : Indicator := ⟨14, 0, none, none⟩

/-- The classifier witness strategy. -/
def s4 : Strategy := ⟨[0], [o1c, o2c, o3c], [i1c, i2c, i3c, i4c]⟩

/-! ## Theorems settling the claims -/

/-- If a style string starts with `candle` it cannot also start with
`line` (the two prefixes differ in their first character). -/
theorem linePat_false_of_candlePat (s : List Char)
    (h : candlePat.isPrefixOf s = true) : linePat.isPrefixOf s = false := by
  cases s with
  | nil => simp [candlePat, List.isPrefixOf] at h
  | cons c rest =>
    simp only [candlePat, List.isPrefixOf_cons₂, Bool.and_eq_true,
      beq_iff_eq] at h
    simp [linePat, List.isPrefixOf_cons₂, ← h.1]

/-- Claim C5: the price renderer dispatch of `Plot.plotdata` selects the
close-only line renderer for any style starting with `line`, the
candlestick renderer for any style starting with `candle`, and the
OHLC-bar renderer for every other style string (including
unrecognized ones such as `area`), never failing. -/
theorem c5_style_fallback (s : List Char) :
    (linePat.isPrefixOf s = true → styleRenderer s = .lineonclose) ∧
    (candlePat.isPrefixOf s = true → styleRenderer s = .candlestick) ∧
    (linePat.isPrefixOf s = false → candlePat.isPrefixOf s = false →
      styleRenderer s = .ohlcbar) := by
  refine ⟨fun h => ?_, fun h => ?_, fun h1 h2 => ?_⟩
  · simp [styleRenderer, h]
  · simp [styleRenderer, linePat_false_of_candlePat s h, h]
  · simp [styleRenderer, h1, h2]

/-- Witness for C5 at the concrete styles `linepoints`, `candlestick`
and `area`. -/
theorem c5_style_fallback_witness :
    styleRenderer ['l', 'i', 'n', 'e', 'p'] = .lineonclose ∧
    styleRenderer ['c', 'a', 'n', 'd', 'l', 'e', 's'] = .candlestick ∧
    styleRenderer ['a', 'r', 'e', 'a'] = .ohlcbar :=
  ⟨(c5_style_fallback _).1 (by decide),
   (c5_style_fallback _).2.1 (by decide),
   (c5_style_fallback _).2.2 (by decide) (by decide)⟩

/-- Claim C6 (amended): `PInfo.zordernext` returns `z * 1.0001` when
`zdown` is off and `z * 0.9999` when it is on; hence for a positive
current z-order — the case arising in practice, matplotlib's default
artist z-orders being positive — successive artifacts' z-orders are
strictly increasing resp. decreasing; and `Plot.drawtag` places every
value tag exactly 3 units above the panel's current top z-order. -/
theorem c6_zorder_drift (up dn : PlotScheme) (z : ℚ)
    (hup : up.zdown = false) (hdn : dn.zdown = true) (hz : 0 < z) :
    zordernext up z = z * 1.0001 ∧
    z < zordernext up z ∧
    zordernext dn z = z * 0.9999 ∧
    zordernext dn z < z ∧
    drawtagZ z = z + 3 := by
  have hu : zordernext up z = z * 1.0001 := by simp [zordernext, hup]
  have hd : zordernext dn z = z * 0.9999 := by simp [zordernext, hdn]
  refine ⟨hu, ?_, hd, ?_, by norm_num [drawtagZ]⟩
  · rw [hu]; nlinarith
  · rw [hd]; nlinarith

/-- Witness for C6 at `z = 2` (matplotlib's default line z-order) with
one ascending and one descending scheme. -/
theorem c6_zorder_drift_witness :
    schD.zdown = false ∧ schZd.zdown = true ∧ (0 : ℚ) < 2 ∧
    zordernext schD 2 = 2 * 1.0001 ∧ (2 : ℚ) < zordernext schD 2 ∧
    zordernext schZd 2 = 2 * 0.9999 ∧ zordernext schZd 2 < 2 ∧
    drawtagZ 2 = 2 + 3 := by
  have h := c6_zorder_drift schD schZd 2 rfl rfl (by norm_num)
  exact ⟨rfl, rfl, by norm_num, h.1, h.2.1, h.2.2.1, h.2.2.2.1, h.2.2.2.2⟩

/-- Counterexample to claim C6 as stated: it quantifies over every
current z-order `z`, but at `z = 0` both drift directions return the
unchanged value `0`, so the z-orders of successive artifacts are not
strictly monotonic there (positivity of `z` is needed, as in the
amended claim). -/
theorem c6_zero_counterexample :
    zordernext schD 0 = 0 ∧ zordernext schZd 0 = 0 := by
  constructor <;> norm_num [zordernext, schD, schZd]

/-- Claim C7: `Plot.plot` on a strategy with no data feeds returns
immediately: no run state, no panels, nothing drawn. -/
theorem c7_empty_noop (sch : PlotScheme) (s : Strategy)
    (h : s.datas = []) : plot sch s = none := by
  simp [plot, h]

/-- Witness for C7 on the concrete empty strategy. -/
theorem c7_empty_noop_witness :
    sEmpty.datas = [] ∧ plot schD sEmpty = none :=
  ⟨rfl, c7_empty_noop schD sEmpty rfl⟩

/-- Claim C2 is violated by the code (code bug): with the legal style
configuration `rowsminor = 2` and a single above-indicator on one data
feed, the allocator's `newaxis` calls reserve `5 + 2 = 7` rows — the
row cursor ends at 7 — while `calcrows` precomputed only 6 (it counts
each above/below entry as one row instead of one `rowsminor` block), so
the cursor exceeds the planned total. -/
theorem c2_rows_overflow :
    sumRowspans (panelsFor sch2 s2 (sortdataindicators s2)) = 7 ∧
    calcrows sch2 s2 (sortdataindicators s2) = 6 ∧
    calcrows sch2 s2 (sortdataindicators s2)
      < sumRowspans (panelsFor sch2 s2 (sortdataindicators s2)) := by
  refine ⟨by decide, by decide, by decide⟩

/-- Claim C3 is violated by the code (code bug): on the same input,
`calcrows` returns 6 — it adds `len(dplotsup) + len(dplotsdown)` rows,
one per entry — whereas the formula the claim states (one
minor-panel-span block per above/below entry, matching what `plotind`
actually allocates) gives 7. -/
theorem c3_calcrows_deviates :
    calcrows sch2 s2 (sortdataindicators s2) = 6 ∧
    calcrowsClaimed sch2 s2 (sortdataindicators s2) = 7 ∧
    calcrowsClaimed sch2 s2 (sortdataindicators s2)
      = sumRowspans (panelsFor sch2 s2 (sortdataindicators s2)) := by
  refine ⟨by decide, by decide, by decide⟩

/-! ### C1 — legend ordering of the price panel -/

/-- `list.index` on a list decomposed around the first occurrence of
`x`. -/
theorem pyIndex_append (x : String) (pre post : List String)
    (h : x ∉ pre) : pyIndex x (pre ++ x :: post) = pre.length := by
  induction pre with
  | nil => simp [pyIndex]
  | cons a as ih =>
    have hax : (a == x) = false := by
      simp only [beq_eq_false_iff_ne, ne_eq]
      intro he
      exact h (he ▸ List.mem_cons_self a as)
    simp [pyIndex, hax, ih (fun hm => h (List.mem_cons_of_mem a hm))]

/-- Reading the element at the first occurrence's index gives `x`. -/
theorem getElem_at_append (x : String) (pre post : List String)
    (hlt : pre.length < (pre ++ x :: post).length) :
    (pre ++ x :: post)[pre.length] = x := by
  induction pre with
  | nil => simp
  | cons a as ih =>
    simp only [List.cons_append, List.length_cons, List.getElem_cons_succ]
    exact ih (by simp)

/-- `list.pop` at the first occurrence's index removes exactly it. -/
theorem pyPop_append (x : String) (pre post : List String) :
    pyPop (pre ++ x :: post) pre.length = pre ++ post := by
  induction pre with
  | nil => simp [pyPop]
  | cons a as ih =>
    simp only [List.cons_append, pyPop, List.take_succ_cons,
      List.drop_succ_cons] at ih ⊢
    simp [ih]

/-- Claim C1 (amended): on a combined price+volume overlay panel the
final legend of `Plot.plotdata` has the price series' label first and
the volume label second — the source first inserts the volume entry at
index 0 and then moves the price entry ahead of it — and all other
entries keep draw order; on a price-only panel the price label is first
and the rest keep draw order. -/
theorem c1_legend_order (ov pr : PlotScheme)
    (hov : ov.volume = true) (hoo : ov.voloverlay = true)
    (hpr : (pr.volume && pr.voloverlay) = false)
    (vollabel datalabel : String) (pre post : List String)
    (hmem : datalabel ∉ pre) (hvol : datalabel ≠ vollabel) :
    plotdataLegend ov vollabel datalabel (pre ++ datalabel :: post)
      = some (datalabel :: vollabel :: (pre ++ post)) ∧
    plotdataLegend pr vollabel datalabel (pre ++ datalabel :: post)
      = some (datalabel :: (pre ++ post)) := by
  have hne : (pre ++ datalabel :: post).isEmpty = false := by
    cases pre <;> simp [List.isEmpty]
  constructor
  · have hmem2 : datalabel ∉ vollabel :: pre := by
      intro hm
      rcases List.mem_cons.mp hm with h1 | h2
      · exact hvol h1
      · exact hmem h2
    have hidx := pyIndex_append datalabel (vollabel :: pre) post hmem2
    have hget := getElem_at_append datalabel (vollabel :: pre) post (by simp)
    have hpop := pyPop_append datalabel (vollabel :: pre) post
    simp only [List.cons_append, List.length_cons] at hidx hget hpop
    simp [plotdataLegend, hne, legendReorder, hov, hoo, hidx, hget, hpop]
  · have hidx := pyIndex_append datalabel pre post hmem
    have hget := getElem_at_append datalabel pre post (by simp)
    have hpop := pyPop_append datalabel pre post
    simp [plotdataLegend, hne, legendReorder, hpr, hidx, hget, hpop]

/-- Witness for the amended C1: overlay panel with legend entries
`[Data, Ind]` plus the overlay volume entry, and a price-only panel. -/
theorem c1_legend_order_witness :
    schOv.volume = true ∧ schOv.voloverlay = true ∧
    (schD.volume && schD.voloverlay) = false ∧
    plotdataLegend schOv "Volume" "Data" ["Data", "Ind"]
      = some ["Data", "Volume", "Ind"] ∧
    plotdataLegend schD "Volume" "Data" ["Data", "Ind"]
      = some ["Data", "Ind"] := by
  have h := c1_legend_order schOv schD rfl rfl rfl "Volume" "Data" []
    ["Ind"] (by decide) (by decide)
  exact ⟨rfl, rfl, rfl, h.1, h.2⟩

/-- Counterexample to claim C1 as stated: on the overlay panel the
claim puts the volume label in the very first position, but the code
moves the price label ahead of it — with the single drawn entry `Data`
the final legend is `[Data, Volume]`, whose first element is not the
volume label. -/
theorem c1_counterexample :
    schOv.volume = true ∧ schOv.voloverlay = true ∧
    plotdataLegend schOv "Volume" "Data" ["Data"]
      = some ["Data", "Volume"] ∧
    (["Data", "Volume"].head? ≠ some "Volume") := by
  refine ⟨rfl, rfl, by decide, by decide⟩

/-! ### C9 — last-value suffix and tag -/

/-- An entirely-`NaN` nonempty series ends in a `NaN` sample. -/
theorem getLast_of_all_none (vals : List (Option ℚ)) (hne : vals ≠ [])
    (h : vals.all (fun v => v == none) = true) :
    vals.getLast? = some none := by
  rw [List.getLast?_eq_getLast vals hne]
  have hm := List.getLast_mem hne
  have := (List.all_eq_true.mp h) _ hm
  simpa using this

/-- Claim C9 (amended): for an unskipped line, `Plot.plotind` appends a
numeric suffix to the legend label and draws a value tag exactly when
the FINAL sample `lplot[-1]` is a number — the suffix and the tag value
are that final sample; when the final sample is `NaN` (in particular
when the series is entirely `NaN`) both are omitted and nothing fails. -/
theorem c9_final_sample (sch : PlotScheme) (defz : ℚ) (m pl : Bool)
    (il : String) (st : AxState) (i : Nat) (ln : SeriesLine)
    (hskip : ln.style.skipFlag = false) :
    ∃ st2 a, processLine sch defz m pl il st i ln = (st2, some a) ∧
      a.suffix = lastSample ln.values ∧
      a.tag = (lastSample ln.values).map (drawtag a.z) ∧
      (∀ v, ln.values.getLast? = some (some v) →
        a.suffix = some v ∧ a.tag = some (drawtag a.z v)) ∧
      (ln.values.getLast? = some none → a.suffix = none ∧ a.tag = none) ∧
      (ln.values ≠ [] → ln.values.all (fun v => v == none) = true →
        a.suffix = none ∧ a.tag = none) := by
  simp only [processLine, hskip, Bool.false_eq_true, if_false]
  refine ⟨_, _, rfl, rfl, rfl, ?_, ?_, ?_⟩
  · intro v hv
    simp [lastSample, hv]
  · intro hv
    simp [lastSample, hv]
  · intro hne hall
    simp [lastSample, getLast_of_all_none ln.values hne hall]

/-- Witness for the amended C9 on a concrete line ending in the valid
sample `3`: the suffix carries that value. -/
theorem c9_final_sample_witness :
    lnW.style.skipFlag = false ∧
    ((processLine schD 2 false false "iw" axStart 0 lnW).2).map
      LineArtifact.suffix = some (some 3) := by
  refine ⟨rfl, ?_⟩
  obtain ⟨st2, a, heq, hsuf, -⟩ :=
    c9_final_sample schD 2 false false "iw" axStart 0 lnW rfl
  rw [heq]
  show some a.suffix = some (some 3)
  rw [hsuf]
  decide

/-- Counterexample to claim C9 as stated: the series `[1, NaN]` contains
a valid sample — its last valid value is `1` — yet the code inspects
only the final sample `lplot[-1]`, which is `NaN`, so neither the legend
suffix nor the value tag is produced (the artifact below has
`suffix = none` and `tag = none`). -/
theorem c9_counterexample :
    lastValidValue lnC.values = some 1 ∧
    processLine schD 2 false false "i" axStart 0 lnC =
      (⟨0, some 2⟩, some ⟨"l0", none, LColor.cycle 0, 2, none⟩) := by
  refine ⟨by decide, by decide⟩

/-! ### C10 — skipped lines leave color and z-order untouched -/

/-- The state transition and (color, z-order) signature of one line do
not depend on the line's index — the index only enters the legend label
text. -/
theorem processLine_sig_index (sch : PlotScheme) (defz : ℚ)
    (m pl : Bool) (il : String) (st : AxState) (ln : SeriesLine)
    (i j : Nat) :
    (processLine sch defz m pl il st i ln).1
      = (processLine sch defz m pl il st j ln).1 ∧
    ((processLine sch defz m pl il st i ln).2).map artSig
      = ((processLine sch defz m pl il st j ln).2).map artSig := by
  cases h : ln.style.skipFlag <;> simp [processLine, h, artSig]

/-- Lifting `processLine_sig_index` over the whole loop: states and
(color, z-order) signatures of the artifacts are index-independent. -/
theorem processLines_sig_index (sch : PlotScheme) (defz : ℚ)
    (m pl : Bool) (il : String) (ls : List SeriesLine) :
    ∀ (st : AxState) (i j : Nat),
      (processLines sch defz m pl il st i ls).1
        = (processLines sch defz m pl il st j ls).1 ∧
      ((processLines sch defz m pl il st i ls).2).map artSig
        = ((processLines sch defz m pl il st j ls).2).map artSig := by
  induction ls with
  | nil => intro st i j; simp [processLines]
  | cons ln rest ih =>
    intro st i j
    obtain ⟨h1, h2⟩ := processLine_sig_index sch defz m pl il st ln i j
    simp only [processLines]
    rw [h1]
    obtain ⟨r1, r2⟩ := ih (processLine sch defz m pl il st j ln).1
      (i + 1) (j + 1)
    rw [r1]
    refine ⟨rfl, ?_⟩
    cases hoi : (processLine sch defz m pl il st i ln).2 with
    | none =>
      cases hoj : (processLine sch defz m pl il st j ln).2 with
      | none => exact r2
      | some b => rw [hoi, hoj] at h2; simp at h2
    | some a =>
      cases hoj : (processLine sch defz m pl il st j ln).2 with
      | none => rw [hoi, hoj] at h2; simp at h2
      | some b =>
        rw [hoi, hoj] at h2
        have h2s : artSig a = artSig b := by simpa using h2
        simp [h2s, r2]

/-- Claim C10: a line whose `_plotskip` flag is set is drawn not at all
— the loop body `continue`s before touching the color cycle or the
recorded z-order — so the axis state is unchanged and the colors and
z-orders assigned to all subsequent lines are identical to what they
would be if the skipped line were absent from the line list. -/
theorem c10_skipped_line (sch : PlotScheme) (defz : ℚ) (m pl : Bool)
    (il : String) (st : AxState) (i : Nat) (ln : SeriesLine)
    (rest : List SeriesLine) (h : ln.style.skipFlag = true) :
    processLine sch defz m pl il st i ln = (st, none) ∧
    (processLines sch defz m pl il st i (ln :: rest)).1
      = (processLines sch defz m pl il st i rest).1 ∧
    ((processLines sch defz m pl il st i (ln :: rest)).2).map artSig
      = ((processLines sch defz m pl il st i rest).2).map artSig := by
  have hstep : processLine sch defz m pl il st i ln = (st, none) := by
    simp [processLine, h]
  refine ⟨hstep, ?_, ?_⟩
  · simp only [processLines, hstep]
    exact (processLines_sig_index sch defz m pl il rest st (i + 1) i).1
  · simp only [processLines, hstep]
    exact (processLines_sig_index sch defz m pl il rest st (i + 1) i).2

/-- Witness for C10: a concrete skipped line before a drawn line; the
drawn line's color and z-order match the run without the skipped one. -/
theorem c10_skipped_line_witness :
    lnS.style.skipFlag = true ∧
    processLine schD 2 false false "is" axStart 0 lnS = (axStart, none) ∧
    ((processLines schD 2 false false "is" axStart 0 [lnS, lnW]).2).map artSig
      = ((processLines schD 2 false false "is" axStart 0 [lnW]).2).map artSig := by
  have h := c10_skipped_line schD 2 false false "is" axStart 0 lnS [lnW] rfl
  exact ⟨rfl, h.1, h.2.2⟩

/-! ### C4 — the classifier partition -/

/-- Effect of the observer loop on every group field: it appends the
visible own-panel observers to `dplotstop` and the visible overlay
observers (keyed by the resolved owner) to `dplotsover`, leaving the
indicator groups alone. -/
theorem foldObs_fields (l : List Observer) : ∀ g : Groups,
    (l.foldl classifyObs g).dplotstop
      = g.dplotstop ++ l.filter (fun o => obsShown o && o.plotinfo.subplot) ∧
    (l.foldl classifyObs g).dplotsup = g.dplotsup ∧
    (l.foldl classifyObs g).dplotsdown = g.dplotsdown ∧
    (l.foldl classifyObs g).dplotsover
      = g.dplotsover
        ++ (l.filter (fun o => obsShown o && !o.plotinfo.subplot)).map
             (fun o => (okey o, OI.obs o)) := by
  induction l with
  | nil => simp
  | cons o rest ih =>
    intro g
    obtain ⟨i1, i2, i3, i4⟩ := ih (classifyObs g o)
    rcases o with ⟨oid, cid, cown, ⟨opl, osk, osub, oab⟩⟩
    cases opl <;> cases osk <;> cases osub <;>
      simp_all [classifyObs, obsShown]

/-- Effect of the indicator loop on every group field: it appends the
visible sub-panel indicators to `dplotsup`/`dplotsdown` according to
`plotabove` and the visible overlay indicators to `dplotsover`, leaving
`dplotstop` alone. -/
theorem foldInd_fields (l : List Indicator) : ∀ g : Groups,
    (l.foldl classifyInd g).dplotstop = g.dplotstop ∧
    (l.foldl classifyInd g).dplotsup
      = g.dplotsup
        ++ (l.filter (fun i => indShown i && indSub i && indAbove i)).map
             (fun i => (ikey i, i)) ∧
    (l.foldl classifyInd g).dplotsdown
      = g.dplotsdown
        ++ (l.filter (fun i => indShown i && indSub i && !indAbove i)).map
             (fun i => (ikey i, i)) ∧
    (l.foldl classifyInd g).dplotsover
      = g.dplotsover
        ++ (l.filter (fun i => indShown i && !indSub i)).map
             (fun i => (ikey i, OI.ind i)) := by
  induction l with
  | nil => simp
  | cons i rest ih =>
    intro g
    obtain ⟨i1, i2, i3, i4⟩ := ih (classifyInd g i)
    rcases i with ⟨iid, cid, cown, pinfo⟩
    cases pinfo with
    | none => simp_all [classifyInd, indShown, indSub, indAbove]
    | some pi =>
      rcases pi with ⟨ipl, isk, isub, iab⟩
      cases ipl <;> cases isk <;> cases isub <;> cases iab <;>
        simp_all [classifyInd, indShown, indSub, indAbove]

/-- The groups built by `sortdataindicators`, in closed form: each group
is the order-preserving filter of its registry, keyed by
`getattr(x._clock, 'owner', x._clock)`. -/
theorem sortdataindicators_eq (s : Strategy) :
    (sortdataindicators s).dplotstop
      = s.observers.filter (fun o => obsShown o && o.plotinfo.subplot) ∧
    (sortdataindicators s).dplotsup
      = (s.indicators.filter (fun i => indShown i && indSub i && indAbove i)).map
          (fun i => (ikey i, i)) ∧
    (sortdataindicators s).dplotsdown
      = (s.indicators.filter (fun i => indShown i && indSub i && !indAbove i)).map
          (fun i => (ikey i, i)) ∧
    (sortdataindicators s).dplotsover
      = (s.observers.filter (fun o => obsShown o && !o.plotinfo.subplot)).map
          (fun o => (okey o, OI.obs o))
        ++ (s.indicators.filter (fun i => indShown i && !indSub i)).map
             (fun i => (ikey i, OI.ind i)) := by
  obtain ⟨o1, o2, o3, o4⟩ := foldObs_fields s.observers emptyGroups
  obtain ⟨j1, j2, j3, j4⟩ :=
    foldInd_fields s.indicators (s.observers.foldl classifyObs emptyGroups)
  rw [sortdataindicators] at *
  refine ⟨?_, ?_, ?_, ?_⟩
  · rw [j1, o1]; simp [emptyGroups]
  · rw [j2, o2]; simp [emptyGroups]
  · rw [j3, o3]; simp [emptyGroups]
  · rw [j4, o4]; simp [emptyGroups]

/-- `OI.obs` is injective. -/
theorem OI_obs_injective : Function.Injective OI.obs := fun _ _ h => by
  injection h

/-- `Prod.snd` of the over-group in closed form. -/
theorem over_snd_eq (s : Strategy) :
    ((sortdataindicators s).dplotsover.map Prod.snd)
      = (s.observers.filter (fun o => obsShown o && !o.plotinfo.subplot)).map OI.obs
        ++ (s.indicators.filter (fun i => indShown i && !indSub i)).map OI.ind := by
  rw [(sortdataindicators_eq s).2.2.2]
  simp only [List.map_append, List.map_map]
  rfl

/-- `Prod.snd` of the up/down groups in closed form. -/
theorem keyed_snd_eq (l : List Indicator) :
    ((l.map (fun i => (ikey i, i))).map Prod.snd) = l := by
  rw [List.map_map]
  exact List.map_id l

/-- Counting an observer inside the observer side of the over group. -/
theorem count_obs_map (o : Observer) (l : List Observer) :
    (l.map OI.obs).count (OI.obs o) = l.count o :=
  List.count_map_of_injective l OI.obs OI_obs_injective o

/-- Counting an indicator inside the indicator side of the over group. -/
theorem count_ind_map (i : Indicator) (l : List Indicator) :
    (l.map OI.ind).count (OI.ind i) = l.count i :=
  List.count_map_of_injective l OI.ind (fun _ _ h => by injection h) i

/-- An observer value never occurs among mapped indicators. -/
theorem count_obs_in_ind (o : Observer) (l : List Indicator) :
    (l.map OI.ind).count (OI.obs o) = 0 :=
  List.count_eq_zero_of_not_mem (by simp)

/-- An indicator value never occurs among mapped observers. -/
theorem count_ind_in_obs (i : Indicator) (l : List Observer) :
    (l.map OI.obs).count (OI.ind i) = 0 :=
  List.count_eq_zero_of_not_mem (by simp)

/-- Count of `a` in `l.filter p`: zero when `p a` fails. -/
theorem count_filter_neg {a : Observer} {p : Observer → Bool}
    {l : List Observer} (hp : p a = false) : (l.filter p).count a = 0 :=
  List.count_eq_zero_of_not_mem (fun hm => by
    have := (List.mem_filter.mp hm).2
    rw [hp] at this
    exact Bool.noConfusion this)

/-- Count of `a` in `l.filter p`: zero when `p a` fails (indicators). -/
theorem count_filter_neg_ind {a : Indicator} {p : Indicator → Bool}
    {l : List Indicator} (hp : p a = false) : (l.filter p).count a = 0 :=
  List.count_eq_zero_of_not_mem (fun hm => by
    have := (List.mem_filter.mp hm).2
    rw [hp] at this
    exact Bool.noConfusion this)

/-- Count of a member of a `Nodup` list in `l.filter p` when `p a`
holds. -/
theorem count_filter_pos {a : Observer} {p : Observer → Bool}
    {l : List Observer} (hnd : l.Nodup) (ha : a ∈ l) (hp : p a = true) :
    (l.filter p).count a = 1 := by
  rw [List.count_filter hp]
  exact List.count_eq_one_of_mem hnd ha

/-- Count of a member of a `Nodup` list in `l.filter p` when `p a`
holds (indicators). -/
theorem count_filter_pos_ind {a : Indicator} {p : Indicator → Bool}
    {l : List Indicator} (hnd : l.Nodup) (ha : a ∈ l) (hp : p a = true) :
    (l.filter p).count a = 1 := by
  rw [List.count_filter hp]
  exact List.count_eq_one_of_mem hnd ha

/-- Claim C4: observers/indicators whose plot flag is off or skip flag
set, and indicators lacking plot metadata, appear in no placement
group; every other observer/indicator appears in exactly one of the
four groups, keyed by the owner resolved through the clock's `owner`
back-reference when present (else the clock itself); and within each
group the registry declaration order is preserved with no sorting (the
group lists are the order-preserving filters of the registries — the
first four conjuncts). -/
theorem c4_classifier_partition (s : Strategy)
    (hobs : s.observers.Nodup) (hind : s.indicators.Nodup) :
    ((sortdataindicators s).dplotstop
      = s.observers.filter (fun o => obsShown o && o.plotinfo.subplot) ∧
     (sortdataindicators s).dplotsup
      = (s.indicators.filter (fun i => indShown i && indSub i && indAbove i)).map
          (fun i => (ikey i, i)) ∧
     (sortdataindicators s).dplotsdown
      = (s.indicators.filter (fun i => indShown i && indSub i && !indAbove i)).map
          (fun i => (ikey i, i)) ∧
     (sortdataindicators s).dplotsover
      = (s.observers.filter (fun o => obsShown o && !o.plotinfo.subplot)).map
          (fun o => (okey o, OI.obs o))
        ++ (s.indicators.filter (fun i => indShown i && !indSub i)).map
            (fun i => (ikey i, OI.ind i))) ∧
    (∀ o ∈ s.observers, obsShown o = false →
      countObsIn (sortdataindicators s) o = 0) ∧
    (∀ i ∈ s.indicators, indShown i = false →
      countIndIn (sortdataindicators s) i = 0) ∧
    (∀ o ∈ s.observers, obsShown o = true →
      countObsIn (sortdataindicators s) o = 1) ∧
    (∀ i ∈ s.indicators, indShown i = true →
      countIndIn (sortdataindicators s) i = 1) := by
  have heq := sortdataindicators_eq s
  refine ⟨heq, ?_, ?_, ?_, ?_⟩
  all_goals
    simp only [countObsIn, countIndIn, heq.1, heq.2.1, heq.2.2.1,
      over_snd_eq s, keyed_snd_eq, List.count_append]
  · -- hidden observers appear nowhere
    intro o ho hshown
    rw [count_filter_neg (by simp [hshown]), count_obs_map,
      count_filter_neg (by simp [hshown]), count_obs_in_ind]
  · -- hidden indicators appear nowhere
    intro i hi hshown
    rw [count_filter_neg_ind (p := fun i => indShown i && indSub i && indAbove i)
        (by simp [hshown]),
      count_filter_neg_ind (p := fun i => indShown i && indSub i && !indAbove i)
        (by simp [hshown]),
      count_ind_in_obs, count_ind_map,
      count_filter_neg_ind (by simp [hshown])]
  · -- visible observers appear exactly once
    intro o ho hshown
    rw [count_obs_map, count_obs_in_ind]
    cases hsub : o.plotinfo.subplot with
    | true =>
      rw [count_filter_pos hobs ho (by simp [hshown, hsub]),
        count_filter_neg (by simp [hshown, hsub])]
    | false =>
      rw [count_filter_neg (by simp [hshown, hsub]),
        count_filter_pos hobs ho (by simp [hshown, hsub])]
  · -- visible indicators appear exactly once
    intro i hi hshown
    rw [count_ind_in_obs, count_ind_map]
    cases hsub : indSub i with
    | true =>
      cases hab : indAbove i with
      | true =>
        rw [count_filter_pos_ind hind hi (by simp [hshown, hsub, hab]),
          count_filter_neg_ind (by simp [hshown, hsub, hab]),
          count_filter_neg_ind (by simp [hsub])]
      | false =>
        rw [count_filter_neg_ind (by simp [hshown, hsub, hab]),
          count_filter_pos_ind hind hi (by simp [hshown, hsub, hab]),
          count_filter_neg_ind (by simp [hsub])]
    | false =>
      rw [count_filter_neg_ind (by simp [hsub]),
        count_filter_neg_ind (by simp [hsub]),
        count_filter_pos_ind hind hi (by simp [hshown, hsub])]

/-- Witness for C4 on a concrete strategy mixing an own-panel observer,
an overlay observer with a stub clock, a skipped observer, above/below/
overlay indicators and one without plot metadata. -/
theorem c4_classifier_partition_witness :
    s4.observers.Nodup ∧ s4.indicators.Nodup ∧
    countObsIn (sortdataindicators s4) o2c = 1 ∧
    countIndIn (sortdataindicators s4) i4c = 0 ∧
    countObsIn (sortdataindicators s4) o3c = 0 ∧
    countIndIn (sortdataindicators s4) i1c = 1 := by
  have h := c4_classifier_partition s4 (by decide) (by decide)
  exact ⟨by decide, by decide,
    h.2.2.2.1 o2c (by decide) (by decide),
    h.2.2.1 i4c (by decide) (by decide),
    h.2.1 o3c (by decide) (by decide),
    h.2.2.2.2 i1c (by decide) (by decide)⟩

/-! ### C8 — date labels only on the last-created panel -/

/-- `Plot.plotdata` always opens at least one panel for its data feed,
whichever volume mode is configured. -/
theorem dataPanels_ne_nil (sch : PlotScheme) (d : Nat) :
    dataPanels sch d ≠ [] := by
  unfold dataPanels
  split <;> simp

/-- With at least one data feed the composition creates at least one
panel. -/
theorem panelsFor_ne_nil (sch : PlotScheme) (s : Strategy) (g : Groups)
    (h : s.datas ≠ []) : panelsFor sch s g ≠ [] := by
  obtain ⟨d, ds, hd⟩ := List.exists_cons_of_ne_nil h
  intro hnil
  rw [panelsFor, hd] at hnil
  rcases List.append_eq_nil.mp hnil with ⟨-, h2⟩
  rw [List.flatMap_cons] at h2
  rcases List.append_eq_nil.mp h2 with ⟨h3, -⟩
  rcases List.append_eq_nil.mp h3 with ⟨h4, -⟩
  rcases List.append_eq_nil.mp h4 with ⟨-, h5⟩
  exact dataPanels_ne_nil sch d h5

/-- `finalizeAxes` in concat form on a nonempty axis list. -/
theorem finalizeAxes_eq (sch : PlotScheme) (axes : List AxisX)
    (h : axes ≠ []) :
    finalizeAxes sch axes
      = (axes.dropLast.map (fun a => { a with ticksVisible := false }))
        ++ [lastAxisMod sch (axes.getLast h)] := by
  rw [finalizeAxes, List.getLast?_eq_getLast axes h]
  rfl

/-- Claim C8: in a completed composition, exactly the last-created panel
carries the real-timestamp tick formatter and visible, rotated x tick
labels, and every other created panel has its x tick labels hidden. -/
theorem c8_last_axis_labels (sch : PlotScheme) (s : Strategy)
    (res : RunResult) (h : plot sch s = some res) :
    res.axes ≠ [] ∧
    (∀ a ∈ res.axes.dropLast,
      a.ticksVisible = false ∧ a.dateFormatter = false) ∧
    (∀ la, res.axes.getLast? = some la →
      la.ticksVisible = true ∧ la.dateFormatter = true ∧
      la.rotation = sch.tickrotation) := by
  rw [plot] at h
  by_cases hemp : s.datas.isEmpty
  · rw [if_pos hemp] at h
    exact Option.noConfusion h
  · rw [if_neg hemp] at h
    have hres : res = ⟨calcrows sch s (sortdataindicators s),
        panelsFor sch s (sortdataindicators s),
        finalizeAxes sch ((panelsFor sch s (sortdataindicators s)).map mkAxis)⟩ :=
      (Option.some_inj.mp h).symm
    have hdne : s.datas ≠ [] := by
      intro hx
      exact hemp (by simp [hx])
    have hpne : panelsFor sch s (sortdataindicators s) ≠ [] :=
      panelsFor_ne_nil sch s (sortdataindicators s) hdne
    have haxne : (panelsFor sch s (sortdataindicators s)).map mkAxis ≠ [] := by
      simp [hpne]
    have haxes : res.axes
        = (((panelsFor sch s (sortdataindicators s)).map mkAxis).dropLast.map
            (fun a => { a with ticksVisible := false }))
          ++ [lastAxisMod sch
              (((panelsFor sch s (sortdataindicators s)).map mkAxis).getLast haxne)] := by
      rw [hres]
      exact finalizeAxes_eq sch _ haxne
    refine ⟨?_, ?_, ?_⟩
    · rw [haxes]; simp
    · intro a ha
      rw [haxes, List.dropLast_concat] at ha
      obtain ⟨a0, ha0, hae⟩ := List.mem_map.mp ha
      have ha0L : a0 ∈ (panelsFor sch s (sortdataindicators s)).map mkAxis :=
        List.dropLast_subset _ ha0
      obtain ⟨p, -, hpe⟩ := List.mem_map.mp ha0L
      refine ⟨by rw [← hae], ?_⟩
      rw [← hae]
      show a0.dateFormatter = false
      rw [← hpe]
      rfl
    · intro la hla
      rw [haxes, List.getLast?_concat] at hla
      rw [← Option.some_inj.mp hla]
      exact ⟨rfl, rfl, rfl⟩

/-- Witness for C8 on a one-data-feed strategy: the single created axis
is the last one; it gets the formatter, visible labels and rotation. -/
theorem c8_last_axis_labels_witness :
    plot schD s1 = some res1 ∧
    (∀ a ∈ res1.axes.dropLast, a.ticksVisible = false) ∧
    (∀ la, res1.axes.getLast? = some la →
      la.ticksVisible = true ∧ la.dateFormatter = true) := by
  have h := c8_last_axis_labels schD s1 res1 rfl
  exact ⟨rfl, fun a ha => (h.2.1 a ha).1,
    fun la hla => ⟨(h.2.2 la hla).1, (h.2.2 la hla).2.1⟩⟩

end BtPlot
